import Mathlib

/-
Verification development for the TranscriptionGUI repository.

The embedding models the coordination layer of src/main.py: the worker
thread `transcription_worker` (media preprocessing, model resolution,
streaming segment persistence, error boundary, cleanup), the result
queue drained by `check_queue`, and the controller entry points
`start_transcription` / `stop_transcription`.

External collaborators (moviepy demuxing, faster-whisper model loading
and transcription, huggingface download, os.unlink) are modelled by an
`Oracle` that fixes the outcome of each external call; the cooperative
stop flag is modelled as a time-indexed boolean, one index per
`stop_flag.is_set()` call in program order.  Filesystem state is an
association list from paths to file contents.
-/

namespace TranscriptionGUI

deriving instance DecidableEq for Except

/-- Events placed on the result queue by the worker thread.  The five
constructors correspond to the five message tags put on
`self.result_queue` in src/main.py ("status", "log", "error",
"success", "finished"). -/
inductive Event where
  | status (s : String)
  | log (s : String)
  | error (s : String)
  | success (s : String)
  | finished
deriving DecidableEq

/-- Returns true exactly on error events. -/
def isErrEv : Event → Bool
  | Event.error _ => true
  | _ => false

/-- Returns true exactly on success events. -/
def isSuccEv : Event → Bool
  | Event.success _ => true
  | _ => false

/-- Filesystem model: association list from path to file contents. -/
abbrev Fs := List (String × String)

/-- Contents of the file at path p, if it exists. -/
def getFile (fs : Fs) (p : String) : Option String := fs.lookup p

/-- Delete the file at path p (os.unlink). -/
def removeFile (fs : Fs) (p : String) : Fs := fs.filter (fun x => x.1 != p)

/-- Create or overwrite the file at path p with contents c. -/
def setFile (fs : Fs) (p c : String) : Fs := (p, c) :: removeFile fs p

/-- Existence test for a path (os.path.exists). -/
def fileExists (fs : Fs) (p : String) : Bool := (getFile fs p).isSome

/-- Character-wise ASCII lowering, modelling str.lower() as applied to
file extensions. -/
def pyLower (s : String) : String := String.mk (s.data.map Char.toLower)

/-- Leading and trailing whitespace removal, modelling str.strip(). -/
def pyStrip (s : String) : String :=
  String.mk (((s.data.dropWhile Char.isWhitespace).reverse.dropWhile
    Char.isWhitespace).reverse)

/-- Final path component, modelling os.path.basename on posix paths. -/
def basename (p : String) : String :=
  String.mk ((p.data.reverse.takeWhile (fun c => c != '/')).reverse)

/-- Index of the last occurrence of a character in a list, if any. -/
def lastIdx (c : Char) (l : List Char) : Option Nat :=
  match l.reverse.findIdx? (fun x => x == c) with
  | none => none
  | some i => some (l.length - 1 - i)

/-- Extension part of os.path.splitext on posix paths: the suffix from
the last dot of the final component, unless every character of the
final component before that dot is itself a dot. -/
def splitext_ext (p : String) : String :=
  let cs := p.data
  match lastIdx '.' cs with
  | none => ""
  | some d =>
    let s := match lastIdx '/' cs with
      | none => 0
      | some i => i + 1
    if d < s then ""
    else if ((cs.drop s).take (d - s)).any (fun c => c != '.') then
      String.mk (cs.drop d)
    else ""

/-- The fixed video extension set of is_video_file (src/main.py line 153). -/
def video_extensions : List String :=
  [".mp4", ".avi", ".mkv", ".mov", ".wmv", ".flv", ".webm", ".m4v"]

/-- Extension-based video classification (src/main.py lines 151-155). -/
def is_video_file (file_path : String) : Bool :=
  video_extensions.contains (pyLower (splitext_ext file_path))

/-- The static model table AVAILABLE_MODELS of src/utils.py. -/
def AVAILABLE_MODELS : List (String × String) :=
  [("tiny", "./models/models--Systran--faster-whisper-tiny"),
   ("tiny.en", "./models/models--Systran--faster-whisper-tiny.en"),
   ("base", "./models/models--Systran--faster-whisper-base"),
   ("base.en", "./models/models--Systran--faster-whisper-base.en"),
   ("small", "./models/models--Systran--faster-whisper-small"),
   ("small.en", "./models/models--Systran--faster-whisper-small.en"),
   ("medium", "./models/models--Systran--faster-whisper-medium"),
   ("medium.en", "./models/models--Systran--faster-whisper-medium.en"),
   ("large-v1", "./models/models--Systran--faster-whisper-large-v1"),
   ("large-v2", "./models/models--Systran--faster-whisper-large-v2"),
   ("large-v3", "./models/models--Systran--faster-whisper-large-v3"),
   ("large", "./models/models--Systran--faster-whisper-large")]

/-- The static repository table HF_MODEL_MAPPING of src/utils.py. -/
def HF_MODEL_MAPPING : List (String × String) :=
  [("tiny", "Systran/faster-whisper-tiny"),
   ("tiny.en", "Systran/faster-whisper-tiny.en"),
   ("base", "Systran/faster-whisper-base"),
   ("base.en", "Systran/faster-whisper-base.en"),
   ("small", "Systran/faster-whisper-small"),
   ("small.en", "Systran/faster-whisper-small.en"),
   ("medium", "Systran/faster-whisper-medium"),
   ("medium.en", "Systran/faster-whisper-medium.en"),
   ("large-v1", "Systran/faster-whisper-large-v1"),
   ("large-v2", "Systran/faster-whisper-large-v2"),
   ("large-v3", "Systran/faster-whisper-large-v3"),
   ("large", "Systran/faster-whisper-large")]

/-- Outcome of one WhisperModel constructor call, as seen by the
try/except dispatch of src/main.py lines 211-226: success, KeyError,
HFValidationError, or any other exception with its message. -/
inductive LoadResult where
  | ok
  | keyError (msg : String)
  | hfError (msg : String)
  | otherErr (msg : String)
deriving DecidableEq

/-- Outcome of the moviepy demux step inside extract_audio_from_video:
the written audio bytes, a missing audio track, or a failing demux
call with its exception message. -/
inductive ExtractOutcome where
  | ok (data : String)
  | noAudio
  | demuxFail (msg : String)
deriving DecidableEq

/-- Transcription metadata (detected language, probability and duration
already rendered to the strings interpolated at src/main.py lines
239-242; the float formatting itself is external). -/
structure TransInfo where
  language : String
  probStr : String
  durStr : String
deriving DecidableEq

/-- Oracle fixing every external outcome of one worker run.  load1 and
load2 are the outcomes of the first and second WhisperModel call,
flag i is the value returned by the i-th stop_flag.is_set() call in
program order, and unlink is the outcome of the cleanup os.unlink. -/
structure Oracle where
  tempName : String
  extract : ExtractOutcome
  load1 : LoadResult
  load2 : LoadResult
  download : Except String Unit
  transcribe : Except String (TransInfo × List String)
  flag : Nat → Bool
  unlink : Except String Unit

/-- The job configuration read from the UI state at worker start. -/
structure WorkerCfg where
  audio_file : String
  output_file : String
  language : String
  model_size : String
deriving DecidableEq

/-- Audio extraction (src/main.py lines 157-185): emits two events,
creates a fresh temporary file, demuxes into it, and on any failure
removes the temporary file before re-raising a descriptive message. -/
def extract_audio_from_video (o : Oracle) (video_path : String) (fs : Fs) :
    Fs × List Event × Except String String :=
  let ev0 : List Event :=
    [Event.status "Extracting audio from video...",
     Event.log ("Extracting audio from video: " ++ basename video_path)]
  let temp := o.tempName
  let fs1 := setFile fs temp ""
  match o.extract with
  | ExtractOutcome.ok data =>
      (setFile fs1 temp data,
       ev0 ++ [Event.log "Audio extracted successfully"],
       Except.ok temp)
  | ExtractOutcome.noAudio =>
      (removeFile fs1 temp, ev0,
       Except.error
         "Failed to extract audio from video: Video file does not contain an audio track")
  | ExtractOutcome.demuxFail msg =>
      (removeFile fs1 temp, ev0,
       Except.error ("Failed to extract audio from video: " ++ msg))

/-- Result of the model resolution step: emitted events, either the
local path of the successfully loaded model or the message of the
exception propagating out of the try/except block, and the
(repo_id, local_path) pair passed to download_model when the download
branch ran. -/
structure ResolveOut where
  events : List Event
  result : Except String String
  downloaded : Option (String × String)
deriving DecidableEq

/-- The except-KeyError branch (src/main.py lines 215-218): log the
substitution and load the base model; an exception from that load
propagates. -/
def fallback_to_base (load : LoadResult) (model_size : String) : ResolveOut :=
  let ev := [Event.log ("Model \x27" ++ model_size ++
    "\x27 not found, using \x27base\x27")]
  match AVAILABLE_MODELS.lookup "base" with
  | none => ⟨ev, Except.error "\x27base\x27", none⟩
  | some path =>
    match load with
    | LoadResult.ok => ⟨ev, Except.ok path, none⟩
    | LoadResult.keyError m => ⟨ev, Except.error m, none⟩
    | LoadResult.hfError m => ⟨ev, Except.error m, none⟩
    | LoadResult.otherErr m => ⟨ev, Except.error m, none⟩

/-- Model resolution (src/main.py lines 211-226): look up the model
path, attempt the load; on KeyError fall back to base, on
HFValidationError download into the expected local path and retry the
load once, and let any other exception propagate. -/
def resolveModel (o : Oracle) (model_size : String) : ResolveOut :=
  match AVAILABLE_MODELS.lookup model_size with
  | none => fallback_to_base o.load1 model_size
  | some path =>
    match o.load1 with
    | LoadResult.ok => ⟨[], Except.ok path, none⟩
    | LoadResult.keyError _ => fallback_to_base o.load2 model_size
    | LoadResult.otherErr m => ⟨[], Except.error m, none⟩
    | LoadResult.hfError _ =>
      let ev := [Event.log ("Model \x27" ++ model_size ++
        "\x27 not found, downloading...")]
      match HF_MODEL_MAPPING.lookup model_size with
      | none => ⟨ev, Except.error ("\x27" ++ model_size ++ "\x27"), none⟩
      | some repo =>
        match o.download with
        | Except.error e => ⟨ev, Except.error e, some (repo, path)⟩
        | Except.ok _ =>
          let ev2 := ev ++ [Event.log ("Model \x27" ++ model_size ++
            "\x27 downloaded successfully")]
          match o.load2 with
          | LoadResult.ok => ⟨ev2, Except.ok path, some (repo, path)⟩
          | LoadResult.keyError m => ⟨ev2, Except.error m, some (repo, path)⟩
          | LoadResult.hfError m => ⟨ev2, Except.error m, some (repo, path)⟩
          | LoadResult.otherErr m => ⟨ev2, Except.error m, some (repo, path)⟩

/-- One output line for a segment (src/main.py line 253). -/
def stripLine (s : String) : String := pyStrip s ++ "\n"

/-- Result of the segment loop: accumulated file contents, the
processed_segments counter, emitted events, and the next stop-flag
check index. -/
structure LoopOut where
  content : String
  processed : Nat
  events : List Event
  k : Nat
deriving DecidableEq

/-- The for-loop over segments (src/main.py lines 247-257): before each
segment the stop flag is checked; if set the loop logs the user stop
and breaks, otherwise the stripped segment text plus newline is
written and the counter incremented. -/
def segmentLoop (flag : Nat → Bool) : Nat → List String → LoopOut
  | k, [] => ⟨"", 0, [], k⟩
  | k, s :: rest =>
    if flag k then
      ⟨"", 0, [Event.log "Transcription stopped by user"], k + 1⟩
    else
      let r := segmentLoop flag (k + 1) rest
      ⟨stripLine s ++ r.content, r.processed + 1, r.events, r.k⟩

/-- The transcription stage (src/main.py lines 231-262): status and
start events, the model.transcribe call, a stop check, the two info
logs, the write loop under open(output, "w") (which truncates), and
the completion events guarded by a final stop check.  The third
component is the message of an exception propagating to the outer
handler, if any. -/
def transcribeStage (o : Oracle) (input output : String) (k : Nat) (fs : Fs) :
    Fs × List Event × Option String :=
  let ev0 : List Event :=
    [Event.status "Transcribing...",
     Event.log ("Starting transcription of file: " ++ basename input)]
  match o.transcribe with
  | Except.error e => (fs, ev0, some e)
  | Except.ok (info, segs) =>
    if o.flag k then (fs, ev0, none)
    else
      let ev1 := ev0 ++
        [Event.log ("Detected language: " ++ info.language ++
           " (probability: " ++ info.probStr ++ ")"),
         Event.log ("Approximate duration: " ++ info.durStr ++ " seconds")]
      let r := segmentLoop o.flag (k + 1) segs
      let fs1 := setFile fs output r.content
      if o.flag r.k then
        (fs1, ev1 ++ r.events, none)
      else
        (fs1, ev1 ++ r.events ++
          [Event.log ("Transcription completed! Processed segments: " ++
             toString r.processed),
           Event.log ("Result saved to: " ++ output),
           Event.success "Transcription completed successfully!"], none)

/-- Result of the try-block of transcription_worker: filesystem,
emitted events, the temp_audio_path variable, and the message of an
exception reaching the outer except handler (none on normal
completion and on the early returns). -/
structure BodyOut where
  fs : Fs
  events : List Event
  temp : Option String
  exc : Option String
deriving DecidableEq

/-- Worker body from the model-loading events on (src/main.py lines
205-262): the "Loading model" events, a stop check, model resolution,
another stop check, then the transcription stage. -/
def bodyAfterInput (o : Oracle) (cfg : WorkerCfg) (fs : Fs) (ev : List Event)
    (temp : Option String) (k : Nat) : BodyOut :=
  let ev1 := ev ++
    [Event.status "Loading model...",
     Event.log ("Loading model: " ++ cfg.model_size)]
  if o.flag k then ⟨fs, ev1, temp, none⟩
  else
    let r := resolveModel o cfg.model_size
    match r.result with
    | Except.error e => ⟨fs, ev1 ++ r.events, temp, some e⟩
    | Except.ok _ =>
      if o.flag (k + 1) then ⟨fs, ev1 ++ r.events, temp, none⟩
      else
        let t := transcribeStage o cfg.audio_file cfg.output_file (k + 2) fs
        ⟨t.1, ev1 ++ r.events ++ t.2.1, temp, t.2.2⟩

/-- The try-block of transcription_worker (src/main.py lines 190-262):
for video inputs a stop check followed by audio extraction (whose
failure propagates with temp_audio_path still None), then the common
tail. -/
def workerBody (o : Oracle) (cfg : WorkerCfg) (fs : Fs) : BodyOut :=
  if is_video_file cfg.audio_file then
    if o.flag 0 then ⟨fs, [], none, none⟩
    else
      match extract_audio_from_video o cfg.audio_file fs with
      | (fs1, ev1, Except.error e) => ⟨fs1, ev1, none, some e⟩
      | (fs1, ev1, Except.ok temp) => bodyAfterInput o cfg fs1 ev1 (some temp) 1
  else
    bodyAfterInput o cfg fs [] none 0

/-- The finally-block cleanup (src/main.py lines 270-276): if a
non-empty temp path was recorded and the file exists, unlink it,
logging success or a warning on failure. -/
def cleanupStage (o : Oracle) (fs : Fs) (temp : Option String) :
    Fs × List Event :=
  match temp with
  | none => (fs, [])
  | some p =>
    if p = "" then (fs, [])
    else if fileExists fs p then
      match o.unlink with
      | Except.ok _ =>
        (removeFile fs p, [Event.log "Temporary audio file cleaned up"])
      | Except.error e =>
        (fs, [Event.log ("Warning: Could not delete temporary file: " ++ e)])
    else (fs, [])

/-- The complete worker (src/main.py lines 187-277): the try-block,
the except handler converting any exception into one error event plus
one log event, and the finally-block running cleanup and emitting the
terminal finished event. -/
def transcription_worker (o : Oracle) (cfg : WorkerCfg) (fs : Fs) :
    Fs × List Event :=
  let b := workerBody o cfg fs
  let evErr : List Event :=
    match b.exc with
    | some e =>
      [Event.error ("An error occurred: " ++ e),
       Event.log ("ERROR: An error occurred: " ++ e)]
    | none => []
  let c := cleanupStage o b.fs b.temp
  (c.1, b.events ++ evErr ++ c.2 ++ [Event.finished])

/-- Number of newline characters, i.e. number of newline-terminated
lines of a file. -/
def countLines (c : String) : Nat := c.data.count '\n'

/-- Concatenation of a list of strings. -/
def joinAll (l : List String) : String := l.foldr (fun a b => a ++ b) ""

/-- UI-visible state updated by the queue drain. -/
structure UIState where
  status : String
  logs : List String
  error_dialogs : List String
  info_dialogs : List String
  is_transcribing : Bool
  start_enabled : Bool
  stop_enabled : Bool
  progress_running : Bool
deriving DecidableEq

/-- Terminal-state handling (src/main.py lines 301-307). -/
def transcription_finished (s : UIState) : UIState :=
  { s with is_transcribing := false, start_enabled := true,
           stop_enabled := false, progress_running := false,
           status := "Ready to work" }

/-- Dispatch of one drained event (src/main.py lines 285-294). -/
def check_queue_step (s : UIState) (e : Event) : UIState :=
  match e with
  | Event.status t => { s with status := t }
  | Event.log t => { s with logs := s.logs ++ [t] }
  | Event.error t => { s with error_dialogs := s.error_dialogs ++ [t] }
  | Event.success t => { s with info_dialogs := s.info_dialogs ++ [t] }
  | Event.finished => transcription_finished s

/-- The drain loop of check_queue (src/main.py lines 281-297): dequeue
from the front of the FIFO queue until empty, applying each event;
the second component is the sequence of events as observed. -/
def check_queue_drain : UIState → List Event → UIState × List Event
  | s, [] => (s, [])
  | s, e :: rest =>
    let r := check_queue_drain (check_queue_step s e) rest
    (r.1, e :: r.2)

/-- Controller-level state: the stop flag, the is_transcribing guard,
the number of worker threads spawned so far, the UI state, and the two
path fields read at start. -/
structure GUIState where
  stop_flag : Bool
  is_transcribing : Bool
  threads : Nat
  ui : UIState
  audio_file : String
  output_file : String
deriving DecidableEq

/-- Exit paths of start_transcription (src/main.py lines 117-144). -/
inductive StartResult where
  | alreadyRunning
  | missingInput
  | missingOutput
  | started
deriving DecidableEq

/-- The start entry point (src/main.py lines 117-144): an early return
while a job is active, early returns with an error dialog for missing
paths, and otherwise clearing the stop flag, setting the guard,
updating controls and status, clearing the log, and spawning the
worker thread. -/
def start_transcription (s : GUIState) : GUIState × StartResult :=
  if s.is_transcribing then (s, StartResult.alreadyRunning)
  else if s.audio_file = "" then
    ({ s with
       ui := { s.ui with
               error_dialogs := s.ui.error_dialogs ++ ["Select audio or video file"] } },
     StartResult.missingInput)
  else if s.output_file = "" then
    ({ s with
       ui := { s.ui with
               error_dialogs := s.ui.error_dialogs ++ ["Specify file for saving"] } },
     StartResult.missingOutput)
  else
    ({ s with stop_flag := false, is_transcribing := true,
              threads := s.threads + 1,
              ui := { s.ui with start_enabled := false, stop_enabled := true,
                                progress_running := true,
                                status := "Initializing...",
                                logs := [] } },
     StartResult.started)

/-- The stop entry point (src/main.py lines 146-149): set the stop
flag and update the status label. -/
def stop_transcription (s : GUIState) : GUIState :=
  { s with stop_flag := true, ui := { s.ui with status := "Stopping..." } }

/-- Empty UI state used by concrete runs. -/
def ui0 : UIState :=
  ⟨"Ready to work", [], [], [], false, true, false, false⟩

/-- Concrete oracle: video job whose model load raises a generic
exception and whose temp-file unlink fails. -/
def oracleC2 : Oracle :=
  ⟨"/tmp/tmp_c2.wav", ExtractOutcome.ok "RIFFDATA",
   LoadResult.otherErr "boom", LoadResult.ok, Except.ok (),
   Except.ok (⟨"en", "0.95", "10.00"⟩, ["a"]), fun _ => false,
   Except.error "Permission denied"⟩

/-- Concrete configuration for the oracleC2 run. -/
def cfgC2 : WorkerCfg := ⟨"in.mp4", "out.txt", "auto", "base"⟩

/-- Concrete oracle: audio job with ten segments, cancelled after the
third segment is written (the flag turns true from the fourth in-loop
check on; with the transcription stage entered at check index 0, the
in-loop checks are indices 1,2,3,4,...). -/
def oracleC3 : Oracle :=
  ⟨"", ExtractOutcome.noAudio, LoadResult.ok, LoadResult.ok, Except.ok (),
   Except.ok (⟨"en", "0.99", "60.00"⟩,
     ["s1", "s2", "s3", "s4", "s5", "s6", "s7", "s8", "s9", "s10"]),
   fun i => decide (4 ≤ i), Except.ok ()⟩

/-- Concrete controller state with a job already active. -/
def stateC4busy : GUIState := ⟨false, true, 1, ui0, "a.mp3", "o.txt"⟩

/-- Concrete idle controller state with both paths chosen. -/
def stateC4idle : GUIState := ⟨true, false, 1, ui0, "a.mp3", "o.txt"⟩

/-- Concrete oracle: the first load of a known model raises
HFValidationError, the download succeeds, and the retried load
succeeds. -/
def oracleC5 : Oracle :=
  ⟨"", ExtractOutcome.noAudio, LoadResult.hfError "bad local path",
   LoadResult.ok, Except.ok (),
   Except.ok (⟨"en", "0.90", "5.00"⟩, []), fun _ => false, Except.ok ()⟩

/-- Concrete oracle: a successful demux writing non-empty WAV data. -/
def oracleC6ok : Oracle :=
  ⟨"/tmp/tmp_c6.wav", ExtractOutcome.ok "RIFFWAVE",
   LoadResult.ok, LoadResult.ok, Except.ok (),
   Except.ok (⟨"en", "0.90", "5.00"⟩, []), fun _ => false, Except.ok ()⟩

/-- Concrete oracle: a failing demux call. -/
def oracleC6fail : Oracle :=
  ⟨"/tmp/tmp_c6.wav", ExtractOutcome.demuxFail "codec not found",
   LoadResult.ok, LoadResult.ok, Except.ok (),
   Except.ok (⟨"en", "0.90", "5.00"⟩, []), fun _ => false, Except.ok ()⟩

/-- Concrete oracle whose first model load succeeds. -/
def oracleC7 : Oracle :=
  ⟨"", ExtractOutcome.noAudio, LoadResult.ok, LoadResult.ok, Except.ok (),
   Except.ok (⟨"en", "0.90", "5.00"⟩, []), fun _ => false, Except.ok ()⟩

/-- Concrete controller state for the stop-idempotence witness: flag
already raised, no job active, both paths chosen. -/
def stateC8 : GUIState := ⟨true, false, 1, ui0, "a.mp3", "o.txt"⟩

/-- Concrete oracle: audio job whose stop flag is already set when the
segment loop starts (checks 0,1,2 before the loop read false, the
first in-loop check at index 3 and the post-loop check at index 4
read true). -/
def oracleC10 : Oracle :=
  ⟨"", ExtractOutcome.noAudio, LoadResult.ok, LoadResult.ok, Except.ok (),
   Except.ok (⟨"en", "0.80", "7.00"⟩, ["hello", "world"]),
   fun i => decide (3 ≤ i), Except.ok ()⟩

/-- Concrete configuration for the oracleC10 run. -/
def cfgC10 : WorkerCfg := ⟨"talk.mp3", "out.txt", "auto", "base"⟩

/-
Helper lemmas.
-/

theorem getFile_setFile_self (fs : Fs) (p c : String) :
    getFile (setFile fs p c) p = some c := by
  simp [getFile, setFile, List.lookup]

theorem lookup_removeFile_ne (fs : Fs) (p q : String) (h : q ≠ p) :
    List.lookup q (removeFile fs p) = List.lookup q fs := by
  induction fs with
  | nil => rfl
  | cons hd tl ih =>
    by_cases hq : q = hd.1
    · have hk : (hd.1 != p) = true := by
        simp only [bne_iff_ne, ne_eq]
        rw [← hq]
        exact h
      simp [removeFile, List.filter, hk, List.lookup, hq, ih]
    · by_cases hp : hd.1 = p
      · simp only [removeFile, List.filter]
        rw [show (hd.1 != p) = false by simp [hp]]
        rw [List.lookup]
        rw [show (q == hd.1) = false by simp [hq]]
        exact ih
      · simp only [removeFile, List.filter]
        rw [show (hd.1 != p) = true by simp [hp]]
        rw [List.lookup, List.lookup]
        rw [show (q == hd.1) = false by simp [hq]]
        exact ih

theorem getFile_setFile_ne (fs : Fs) (p q c : String) (h : q ≠ p) :
    getFile (setFile fs p c) q = getFile fs q := by
  simp only [getFile, setFile, List.lookup]
  rw [show (q == p) = false by simp [h]]
  exact lookup_removeFile_ne fs p q h

theorem removeFile_eq_of_fresh (fs : Fs) (p : String)
    (h : ∀ e ∈ fs, e.1 ≠ p) : removeFile fs p = fs := by
  unfold removeFile
  rw [List.filter_eq_self]
  intro a ha
  simpa using h a ha

theorem removeFile_cons_self (fs : Fs) (p c : String) :
    removeFile ((p, c) :: fs) p = removeFile fs p := by
  simp [removeFile, List.filter]

theorem removeFile_setFile_fresh (fs : Fs) (p c : String)
    (h : ∀ e ∈ fs, e.1 ≠ p) : removeFile (setFile fs p c) p = fs := by
  have h1 : removeFile fs p = fs := removeFile_eq_of_fresh fs p h
  calc removeFile (setFile fs p c) p
      = removeFile ((p, c) :: removeFile fs p) p := rfl
    _ = removeFile (removeFile fs p) p := removeFile_cons_self _ p c
    _ = fs := by rw [h1, h1]

theorem check_queue_drain_trace (q : List Event) :
    ∀ s : UIState, (check_queue_drain s q).2 = q := by
  induction q with
  | nil => intro s; rfl
  | cons e rest ih => intro s; simp [check_queue_drain, ih]

theorem joinAll_nil : joinAll [] = "" := rfl

theorem joinAll_cons (x : String) (l : List String) :
    joinAll (x :: l) = x ++ joinAll l := rfl

theorem countLines_append (a b : String) :
    countLines (a ++ b) = countLines a + countLines b := by
  simp [countLines, String.data_append, List.count_append]

theorem countLines_stripLine (s : String) (h : '\n' ∉ (pyStrip s).data) :
    countLines (stripLine s) = 1 := by
  have hz : (pyStrip s).data.count '\n' = 0 := List.count_eq_zero.2 h
  unfold stripLine countLines
  rw [String.data_append, List.count_append, hz]
  rfl

theorem countLines_joinAll (l : List String)
    (h : ∀ s ∈ l, '\n' ∉ (pyStrip s).data) :
    countLines (joinAll (l.map stripLine)) = l.length := by
  induction l with
  | nil => simp [joinAll, countLines]
  | cons x t ih =>
    rw [List.map_cons, joinAll_cons, countLines_append,
      countLines_stripLine x (h x (by simp)),
      ih (fun s hs => h s (by simp [hs]))]
    simp [Nat.add_comm]

theorem segmentLoop_events_stop (flag : Nat → Bool) (k : Nat)
    (segs : List String) :
    ∀ e ∈ (segmentLoop flag k segs).events,
      e = Event.log "Transcription stopped by user" := by
  induction segs generalizing k with
  | nil => intro e he; simp [segmentLoop] at he
  | cons s rest ih =>
    intro e he
    by_cases h : flag k
    · simp [segmentLoop, h] at he
      simp [he]
    · simp only [segmentLoop, h, Bool.false_eq_true, if_false] at he
      exact ih (k + 1) e he

theorem segmentLoop_cancel (flag : Nat → Bool) :
    ∀ (n k : Nat) (segs : List String), n < segs.length →
    (∀ i, i < n → flag (k + i) = false) → flag (k + n) = true →
    segmentLoop flag k segs =
      ⟨joinAll ((segs.take n).map stripLine), n,
       [Event.log "Transcription stopped by user"], k + n + 1⟩ := by
  intro n
  induction n with
  | zero =>
    intro k segs hlen hf ht
    cases segs with
    | nil => simp at hlen
    | cons s rest =>
      have ht0 : flag k = true := by simpa using ht
      simp [segmentLoop, ht0, joinAll_nil]
  | succ n ih =>
    intro k segs hlen hf ht
    cases segs with
    | nil => simp at hlen
    | cons s rest =>
      have h0 : flag k = false := by simpa using hf 0 (Nat.succ_pos n)
      have hrest : segmentLoop flag (k + 1) rest =
          ⟨joinAll ((rest.take n).map stripLine), n,
           [Event.log "Transcription stopped by user"], k + 1 + n + 1⟩ := by
        refine ih (k + 1) rest (by simpa using Nat.lt_of_succ_lt_succ hlen)
          (fun i hi => ?_) (by rw [show k + 1 + n = k + (n + 1) by omega]; exact ht)
        rw [show k + 1 + i = k + (i + 1) by omega]
        exact hf (i + 1) (Nat.succ_lt_succ hi)
      simp only [segmentLoop, h0, Bool.false_eq_true, if_false, hrest]
      rw [List.take_succ_cons, List.map_cons, joinAll_cons,
        show k + (n + 1) + 1 = k + 1 + n + 1 by omega]

theorem bodyAfterInput_temp (o : Oracle) (cfg : WorkerCfg) (fs : Fs)
    (ev : List Event) (temp : Option String) (k : Nat) :
    (bodyAfterInput o cfg fs ev temp k).temp = temp := by
  unfold bodyAfterInput
  by_cases h : o.flag k
  · simp [h]
  · simp only [h, Bool.false_eq_true, if_false]
    rcases hr : (resolveModel o cfg.model_size).result with e | path
    · simp [hr]
    · simp only [hr]
      by_cases h2 : o.flag (k + 1) <;> simp [h2]

theorem extract_events_benign (o : Oracle) (p : String) (fs : Fs) :
    ∀ e ∈ (extract_audio_from_video o p fs).2.1,
      isErrEv e = false ∧ isSuccEv e = false ∧ e ≠ Event.finished := by
  intro e he
  cases h : o.extract <;>
    (simp [extract_audio_from_video, h] at he ;
     rcases he with rfl | rfl | rfl <;> simp [isErrEv, isSuccEv])

theorem fallback_events_log (r : LoadResult) (ms : String) :
    ∀ e ∈ (fallback_to_base r ms).events, ∃ t, e = Event.log t := by
  intro e he
  unfold fallback_to_base at he
  rcases hb : AVAILABLE_MODELS.lookup "base" with _ | path <;> rw [hb] at he
  · simp at he
    exact ⟨_, he⟩
  · cases r <;> (simp at he ; exact ⟨_, he⟩)

theorem resolveModel_events_log (o : Oracle) (ms : String) :
    ∀ e ∈ (resolveModel o ms).events, ∃ t, e = Event.log t := by
  intro e he
  unfold resolveModel at he
  rcases ha : AVAILABLE_MODELS.lookup ms with _ | path <;> rw [ha] at he
  · exact fallback_events_log o.load1 ms e he
  · cases hl : o.load1 <;> rw [hl] at he
    · simp at he
    · exact fallback_events_log o.load2 ms e he
    · rcases hh : HF_MODEL_MAPPING.lookup ms with _ | repo <;> rw [hh] at he
      · simp at he
        exact ⟨_, he⟩
      · rcases hd : o.download with d | d <;> rw [hd] at he
        · simp at he
          exact ⟨_, he⟩
        · cases hl2 : o.load2 <;> rw [hl2] at he <;>
            (simp at he ; rcases he with rfl | rfl <;> exact ⟨_, rfl⟩)
    · simp at he

theorem benign_of_log (e : Event) (h : ∃ t, e = Event.log t) :
    isErrEv e = false ∧ isSuccEv e = false ∧ e ≠ Event.finished := by
  rcases h with ⟨t, rfl⟩
  simp [isErrEv, isSuccEv]

theorem segmentLoop_benign (flag : Nat → Bool) (k : Nat) (segs : List String) :
    ∀ e ∈ (segmentLoop flag k segs).events,
      isErrEv e = false ∧ e ≠ Event.finished := by
  intro e he
  rw [segmentLoop_events_stop flag k segs e he]
  simp [isErrEv]

theorem transcribeStage_benign (o : Oracle) (input output : String) (k : Nat)
    (fs : Fs) :
    ∀ e ∈ (transcribeStage o input output k fs).2.1,
      isErrEv e = false ∧ e ≠ Event.finished := by
  simp only [transcribeStage]
  repeat' split
  all_goals
    simp only [List.forall_mem_append, List.forall_mem_cons, List.forall_mem_nil,
      and_true, true_and]
  all_goals repeat' apply And.intro
  all_goals
    first
      | exact segmentLoop_benign o.flag _ _
      | simp [isErrEv]

theorem bodyAfterInput_benign (o : Oracle) (cfg : WorkerCfg) (fs : Fs)
    (ev : List Event) (temp : Option String) (k : Nat)
    (hev : ∀ e ∈ ev, isErrEv e = false ∧ e ≠ Event.finished) :
    ∀ e ∈ (bodyAfterInput o cfg fs ev temp k).events,
      isErrEv e = false ∧ e ≠ Event.finished := by
  have hres : ∀ e ∈ (resolveModel o cfg.model_size).events,
      isErrEv e = false ∧ e ≠ Event.finished := by
    intro e he
    have h := benign_of_log e (resolveModel_events_log o cfg.model_size e he)
    exact ⟨h.1, h.2.2⟩
  simp only [bodyAfterInput]
  repeat' split
  all_goals
    simp only [List.forall_mem_append, List.forall_mem_cons, List.forall_mem_nil,
      and_true, true_and]
  all_goals repeat' apply And.intro
  all_goals
    first
      | exact hev
      | exact hres
      | exact transcribeStage_benign o cfg.audio_file cfg.output_file _ fs
      | simp [isErrEv]

theorem workerBody_benign (o : Oracle) (cfg : WorkerCfg) (fs : Fs) :
    ∀ e ∈ (workerBody o cfg fs).events,
      isErrEv e = false ∧ e ≠ Event.finished := by
  unfold workerBody
  by_cases hv : is_video_file cfg.audio_file
  · simp only [hv, if_true]
    by_cases h0 : o.flag 0
    · simp [h0]
    · simp only [h0, Bool.false_eq_true, if_false]
      rcases hx : extract_audio_from_video o cfg.audio_file fs with ⟨fs1, ev1, r⟩
      have hbenx : ∀ e ∈ ev1, isErrEv e = false ∧ e ≠ Event.finished := by
        intro e he
        have h := extract_events_benign o cfg.audio_file fs e (by rw [hx]; exact he)
        exact ⟨h.1, h.2.2⟩
      rcases r with m | temp
      · simpa using hbenx
      · simpa using bodyAfterInput_benign o cfg fs1 ev1 (some temp) 1 hbenx
  · simp only [hv, Bool.false_eq_true, if_false]
    exact bodyAfterInput_benign o cfg fs [] none 0 (by simp)

theorem cleanupStage_benign (o : Oracle) (fs : Fs) (temp : Option String) :
    ∀ e ∈ (cleanupStage o fs temp).2,
      isErrEv e = false ∧ isSuccEv e = false ∧ e ≠ Event.finished := by
  unfold cleanupStage
  repeat' split
  all_goals simp [isErrEv, isSuccEv]

theorem transcription_worker_events (o : Oracle) (cfg : WorkerCfg) (fs : Fs) :
    (transcription_worker o cfg fs).2 =
      (workerBody o cfg fs).events ++
      (match (workerBody o cfg fs).exc with
       | some e => [Event.error ("An error occurred: " ++ e),
                    Event.log ("ERROR: An error occurred: " ++ e)]
       | none => []) ++
      (cleanupStage o (workerBody o cfg fs).fs (workerBody o cfg fs).temp).2 ++
      [Event.finished] := rfl

theorem hf_lookup_of_avail (id : String)
    (h : (AVAILABLE_MODELS.lookup id).isSome) :
    (HF_MODEL_MAPPING.lookup id).isSome := by
  simp only [AVAILABLE_MODELS, List.lookup] at h
  simp only [HF_MODEL_MAPPING, List.lookup]
  repeat' split at h <;> simp_all

/-
Claim theorems.
-/

/-- C1: for every worker run, whatever the oracle outcomes (success,
error, or cancellation), exactly one finished event is placed on the
result queue, it is the last event of the job, and the check_queue
drain observes the queue in exactly the emitted FIFO order. -/
theorem c1_finished_unique_terminal_fifo (o : Oracle) (cfg : WorkerCfg)
    (fs : Fs) :
    (transcription_worker o cfg fs).2.count Event.finished = 1 ∧
    (transcription_worker o cfg fs).2.getLast? = some Event.finished ∧
    ∀ s : UIState,
      (check_queue_drain s (transcription_worker o cfg fs).2).2 =
        (transcription_worker o cfg fs).2 := by
  refine ⟨?_, ?_, fun s => check_queue_drain_trace _ s⟩
  · rw [transcription_worker_events, List.count_append, List.count_append,
      List.count_append]
    have h1 : (workerBody o cfg fs).events.count Event.finished = 0 :=
      List.count_eq_zero.2 (fun hmem => (workerBody_benign o cfg fs _ hmem).2 rfl)
    have h2 : (cleanupStage o (workerBody o cfg fs).fs
        (workerBody o cfg fs).temp).2.count Event.finished = 0 :=
      List.count_eq_zero.2
        (fun hmem => (cleanupStage_benign o _ _ _ hmem).2.2 rfl)
    have h3 : (match (workerBody o cfg fs).exc with
        | some e => [Event.error ("An error occurred: " ++ e),
                     Event.log ("ERROR: An error occurred: " ++ e)]
        | none => ([] : List Event)).count Event.finished = 0 := by
      rcases (workerBody o cfg fs).exc with _ | e <;>
        simp [List.count_cons, beq_iff_eq]
    rw [h1, h2, h3]
    simp [List.count_cons, beq_iff_eq]
  · rw [transcription_worker_events]
    exact List.getLast?_concat _

/-- C2: every exception inside the worker body surfaces as exactly one
error event carrying a human-readable message, accompanied by an ERROR
log line, and the finished event still terminates the stream; when no
exception occurs, no error event at all is emitted; and a failing
temp-file cleanup yields only a warning log event (not an error
event).  The worker itself is a total function of the oracle, so no
raw exception crosses into the interactive context. -/
theorem c2_error_boundary (o : Oracle) (cfg : WorkerCfg) (fs : Fs) :
    (∀ e, (workerBody o cfg fs).exc = some e →
       (transcription_worker o cfg fs).2.filter isErrEv =
         [Event.error ("An error occurred: " ++ e)] ∧
       Event.log ("ERROR: An error occurred: " ++ e) ∈
         (transcription_worker o cfg fs).2) ∧
    ((workerBody o cfg fs).exc = none →
       (transcription_worker o cfg fs).2.filter isErrEv = []) ∧
    (∀ p u, (workerBody o cfg fs).temp = some p → p ≠ "" →
       fileExists (workerBody o cfg fs).fs p = true →
       o.unlink = Except.error u →
       Event.log ("Warning: Could not delete temporary file: " ++ u) ∈
         (transcription_worker o cfg fs).2 ∧
       isErrEv (Event.log ("Warning: Could not delete temporary file: " ++ u))
         = false) ∧
    (transcription_worker o cfg fs).2.getLast? = some Event.finished := by
  have hfb : (workerBody o cfg fs).events.filter isErrEv = [] :=
    List.filter_eq_nil_iff.2
      (fun e he => by simp [(workerBody_benign o cfg fs e he).1])
  have hfc : (cleanupStage o (workerBody o cfg fs).fs
      (workerBody o cfg fs).temp).2.filter isErrEv = [] :=
    List.filter_eq_nil_iff.2
      (fun e he => by simp [(cleanupStage_benign o _ _ e he).1])
  refine ⟨?_, ?_, ?_, ?_⟩
  · intro e hexc
    constructor
    · rw [transcription_worker_events, List.filter_append, List.filter_append,
        List.filter_append, hfb, hfc, hexc]
      simp [List.filter, isErrEv]
    · rw [transcription_worker_events, hexc]
      simp
  · intro hexc
    rw [transcription_worker_events, List.filter_append, List.filter_append,
      List.filter_append, hfb, hfc, hexc]
    simp [List.filter, isErrEv]
  · intro p u htemp hp hex hu
    refine ⟨?_, by simp [isErrEv]⟩
    rw [transcription_worker_events, htemp]
    have hcl : (cleanupStage o (workerBody o cfg fs).fs (some p)).2 =
        [Event.log ("Warning: Could not delete temporary file: " ++ u)] := by
      unfold cleanupStage
      simp [hp, hex, hu]
    rw [hcl]
    simp
  · rw [transcription_worker_events]
    exact List.getLast?_concat _

/-- Witness for C2 at a concrete run: a video job whose model load
raises a generic exception and whose temp-file unlink then fails. -/
theorem c2_error_boundary_witness :
    (workerBody oracleC2 cfgC2 []).exc = some "boom" ∧
    (workerBody oracleC2 cfgC2 []).temp = some "/tmp/tmp_c2.wav" ∧
    (transcription_worker oracleC2 cfgC2 []).2.filter isErrEv =
      [Event.error "An error occurred: boom"] ∧
    Event.log "ERROR: An error occurred: boom" ∈
      (transcription_worker oracleC2 cfgC2 []).2 ∧
    Event.log "Warning: Could not delete temporary file: Permission denied" ∈
      (transcription_worker oracleC2 cfgC2 []).2 := by
  have h := c2_error_boundary oracleC2 cfgC2 []
  refine ⟨by decide, by decide, ?_, ?_, ?_⟩
  · exact (h.1 "boom" (by decide)).1
  · exact (h.1 "boom" (by decide)).2
  · exact (h.2.2.1 "/tmp/tmp_c2.wav" "Permission denied" (by decide) (by decide)
      (by decide) (by decide)).1

/-- C3: in the segment-streaming stage the stop flag is checked before
each segment (the loop consumes one flag read per segment, writing
only on a false read); over a ten-segment sequence cancelled after
the third written segment, the output file holds exactly the three
written lines, the user-stop log event is emitted while no error and
no success event is, and the processed_segments counter equals the
number of lines actually written. -/
theorem c3_cancellation_mid_stream (o : Oracle) (input output : String)
    (k : Nat) (fs : Fs) (info : TransInfo) (segs : List String)
    (htr : o.transcribe = Except.ok (info, segs))
    (hlen : segs.length = 10)
    (hnl : ∀ s ∈ segs, '\n' ∉ (pyStrip s).data)
    (h0 : o.flag k = false)
    (hfalse : ∀ i, i < 3 → o.flag (k + 1 + i) = false)
    (htrue : o.flag (k + 1 + 3) = true)
    (hafter : o.flag (k + 1 + 3 + 1) = true) :
    getFile (transcribeStage o input output k fs).1 output =
      some (joinAll ((segs.take 3).map stripLine)) ∧
    countLines (joinAll ((segs.take 3).map stripLine)) = 3 ∧
    (segmentLoop o.flag (k + 1) segs).processed = 3 ∧
    Event.log "Transcription stopped by user" ∈
      (transcribeStage o input output k fs).2.1 ∧
    (∀ m, Event.error m ∉ (transcribeStage o input output k fs).2.1) ∧
    (∀ m, Event.success m ∉ (transcribeStage o input output k fs).2.1) ∧
    (transcribeStage o input output k fs).2.2 = none := by
  have hloop : segmentLoop o.flag (k + 1) segs =
      ⟨joinAll ((segs.take 3).map stripLine), 3,
       [Event.log "Transcription stopped by user"], k + 1 + 3 + 1⟩ :=
    segmentLoop_cancel o.flag 3 (k + 1) segs (by omega) hfalse htrue
  have hstage : transcribeStage o input output k fs =
      (setFile fs output (joinAll ((segs.take 3).map stripLine)),
       [Event.status "Transcribing...",
        Event.log ("Starting transcription of file: " ++ basename input),
        Event.log ("Detected language: " ++ info.language ++
          " (probability: " ++ info.probStr ++ ")"),
        Event.log ("Approximate duration: " ++ info.durStr ++ " seconds"),
        Event.log "Transcription stopped by user"], none) := by
    simp only [transcribeStage, htr, h0, Bool.false_eq_true, if_false, hloop]
    simp [hafter]
  refine ⟨?_, ?_, ?_, ?_, ?_, ?_, ?_⟩
  · rw [hstage]
    exact getFile_setFile_self fs output _
  · rw [countLines_joinAll (segs.take 3)
      (fun s hs => hnl s (List.take_subset 3 segs hs))]
    rw [List.length_take, hlen]
    decide
  · rw [hloop]
  · rw [hstage]
    simp
  · intro m
    rw [hstage]
    simp
  · intro m
    rw [hstage]
    simp
  · rw [hstage]

/-- Witness for C3 at a concrete run: ten segments, the stop flag
turning true from the fourth in-loop check on. -/
theorem c3_cancellation_mid_stream_witness :
    getFile (transcribeStage oracleC3 "talk.wav" "out.txt" 0 []).1 "out.txt" =
      some "s1\ns2\ns3\n" ∧
    (segmentLoop oracleC3.flag 1
      ["s1", "s2", "s3", "s4", "s5", "s6", "s7", "s8", "s9", "s10"]).processed
      = 3 ∧
    Event.log "Transcription stopped by user" ∈
      (transcribeStage oracleC3 "talk.wav" "out.txt" 0 []).2.1 ∧
    (transcribeStage oracleC3 "talk.wav" "out.txt" 0 []).2.2 = none := by
  have h := c3_cancellation_mid_stream oracleC3 "talk.wav" "out.txt" 0 []
    ⟨"en", "0.99", "60.00"⟩
    ["s1", "s2", "s3", "s4", "s5", "s6", "s7", "s8", "s9", "s10"]
    (by decide) (by decide) (by decide) (by decide) (by decide) (by decide)
    (by decide)
  refine ⟨?_, h.2.2.1, h.2.2.2.1, h.2.2.2.2.2.2⟩
  rw [h.1]
  decide

/-- C4: start while a job is active takes the AlreadyRunning exit and
leaves the state unchanged (in particular no second worker thread is
spawned); start on an idle state with both paths chosen clears the
stop flag, sets the running guard, clears the transient log, resets
the status, toggles the controls, and spawns exactly one worker
thread. -/
theorem c4_start_guard (s : GUIState) :
    (s.is_transcribing = true →
       start_transcription s = (s, StartResult.alreadyRunning)) ∧
    (s.is_transcribing = false → s.audio_file ≠ "" → s.output_file ≠ "" →
       (start_transcription s).2 = StartResult.started ∧
       (start_transcription s).1.stop_flag = false ∧
       (start_transcription s).1.is_transcribing = true ∧
       (start_transcription s).1.threads = s.threads + 1 ∧
       (start_transcription s).1.ui.logs = [] ∧
       (start_transcription s).1.ui.status = "Initializing..." ∧
       (start_transcription s).1.ui.start_enabled = false ∧
       (start_transcription s).1.ui.stop_enabled = true) := by
  constructor
  · intro h
    simp [start_transcription, h]
  · intro h ha ho
    simp [start_transcription, h, ha, ho]

/-- Witness for C4: a busy state is rejected unchanged, an idle state
with chosen paths starts and spawns one thread. -/
theorem c4_start_guard_witness :
    start_transcription stateC4busy = (stateC4busy, StartResult.alreadyRunning) ∧
    (start_transcription stateC4idle).2 = StartResult.started ∧
    (start_transcription stateC4idle).1.stop_flag = false ∧
    (start_transcription stateC4idle).1.threads = stateC4idle.threads + 1 := by
  have h1 := (c4_start_guard stateC4busy).1 (by decide)
  have h2 := (c4_start_guard stateC4idle).2 (by decide) (by decide) (by decide)
  exact ⟨h1, h2.1, h2.2.1, h2.2.2.2.1⟩

/-- C8: stop_transcription is idempotent and total (no exit path can
fail), it always leaves the stop flag true, it never lowers an
already-raised flag, and the only transition that resets the flag to
false is a start call that actually launches a job. -/
theorem c8_stop_idempotent_monotone :
    (∀ s : GUIState,
       stop_transcription (stop_transcription s) = stop_transcription s) ∧
    (∀ s : GUIState, (stop_transcription s).stop_flag = true) ∧
    (∀ s : GUIState, s.stop_flag = true →
       (stop_transcription s).stop_flag = true) ∧
    (∀ s : GUIState, s.stop_flag = true →
       (start_transcription s).1.stop_flag = false →
       (start_transcription s).2 = StartResult.started) := by
  refine ⟨fun s => rfl, fun s => rfl, fun s _ => rfl, fun s hs hf => ?_⟩
  unfold start_transcription at hf ⊢
  split_ifs at hf ⊢ <;> simp_all

/-- Witness for C8 at a concrete state with the flag already raised. -/
theorem c8_stop_idempotent_monotone_witness :
    stop_transcription (stop_transcription stateC8) = stop_transcription stateC8 ∧
    (stop_transcription stateC8).stop_flag = true ∧
    (start_transcription stateC8).2 = StartResult.started := by
  have h := c8_stop_idempotent_monotone
  exact ⟨h.1 stateC8, h.2.1 stateC8, h.2.2.2 stateC8 (by decide) (by decide)⟩

theorem removeFile_idem (fs : Fs) (p : String) :
    removeFile (removeFile fs p) p = removeFile fs p := by
  simp [removeFile, List.filter_filter]

theorem setFile_setFile (fs : Fs) (p c d : String) :
    setFile (setFile fs p c) p d = setFile fs p d := by
  show (p, d) :: removeFile ((p, c) :: removeFile fs p) p = _
  rw [removeFile_cons_self, removeFile_idem]
  rfl

/-- C5: for a known model identifier whose first load raises
HFValidationError (the local artifact path being syntactically
invalid as an identifier for the acquisition system), the resolver
logs the download, invokes download_model with the repository id and
the expected local path, logs completion and retries the load,
succeeding when the retry does; a first load failing with any other
exception propagates immediately as the job-aborting resolution
error, with no download attempt. -/
theorem c5_resolution_download_retry (o : Oracle) (id path msg : String)
    (h : AVAILABLE_MODELS.lookup id = some path) :
    (o.load1 = LoadResult.hfError msg →
       ∃ repo, HF_MODEL_MAPPING.lookup id = some repo ∧
         (resolveModel o id).downloaded = some (repo, path) ∧
         Event.log ("Model \x27" ++ id ++ "\x27 not found, downloading...") ∈
           (resolveModel o id).events ∧
         (o.download = Except.ok () → o.load2 = LoadResult.ok →
            resolveModel o id =
              ⟨[Event.log ("Model \x27" ++ id ++
                  "\x27 not found, downloading..."),
                Event.log ("Model \x27" ++ id ++
                  "\x27 downloaded successfully")],
               Except.ok path, some (repo, path)⟩)) ∧
    (∀ m, o.load1 = LoadResult.otherErr m →
       resolveModel o id = ⟨[], Except.error m, none⟩) := by
  have hhf := hf_lookup_of_avail id (by rw [h]; rfl)
  rcases hrepo : HF_MODEL_MAPPING.lookup id with _ | repo
  · rw [hrepo] at hhf
    simp at hhf
  constructor
  · intro hl1
    refine ⟨repo, rfl, ?_, ?_, ?_⟩
    · cases hd : o.download <;> cases hl2 : o.load2 <;>
        simp [resolveModel, h, hl1, hrepo, hd, hl2]
    · cases hd : o.download <;> cases hl2 : o.load2 <;>
        simp [resolveModel, h, hl1, hrepo, hd, hl2]
    · intro hdl hl2
      simp [resolveModel, h, hl1, hrepo, hdl, hl2]
  · intro m hm
    simp [resolveModel, h, hm]

/-- Witness for C5: the tiny model, first load raising
HFValidationError, download succeeding, retried load succeeding. -/
theorem c5_resolution_download_retry_witness :
    AVAILABLE_MODELS.lookup "tiny" =
      some "./models/models--Systran--faster-whisper-tiny" ∧
    oracleC5.load1 = LoadResult.hfError "bad local path" ∧
    resolveModel oracleC5 "tiny" =
      ⟨[Event.log "Model \x27tiny\x27 not found, downloading...",
        Event.log "Model \x27tiny\x27 downloaded successfully"],
       Except.ok "./models/models--Systran--faster-whisper-tiny",
       some ("Systran/faster-whisper-tiny",
         "./models/models--Systran--faster-whisper-tiny")⟩ := by
  obtain ⟨repo, hrepo, hdl, hmem, heq⟩ :=
    (c5_resolution_download_retry oracleC5 "tiny"
      "./models/models--Systran--faster-whisper-tiny" "bad local path"
      (by decide)).1 (by decide)
  have hr2 : HF_MODEL_MAPPING.lookup "tiny" =
      some "Systran/faster-whisper-tiny" := by decide
  rw [hrepo] at hr2
  obtain rfl : repo = "Systran/faster-whisper-tiny" := Option.some.inj hr2
  exact ⟨by decide, by decide, heq (by decide) (by decide)⟩

/-- C6: for a video input, extraction either returns the path of the
freshly written audio artifact (the filesystem changed at that path
alone, which then holds exactly the demuxed data, non-empty whenever
the demuxer wrote non-empty data) or fails with a descriptive
message, the temporary file having been removed before the error is
surfaced, so that on the failure path the filesystem is exactly as
before the call and no orphaned artifact remains. -/
theorem c6_extract_audio (o : Oracle) (path : String) (fs : Fs)
    (_hvid : is_video_file path = true)
    (hfresh : ∀ e ∈ fs, e.1 ≠ o.tempName) :
    (∀ data, o.extract = ExtractOutcome.ok data →
       extract_audio_from_video o path fs =
         (setFile fs o.tempName data,
          [Event.status "Extracting audio from video...",
           Event.log ("Extracting audio from video: " ++ basename path),
           Event.log "Audio extracted successfully"],
          Except.ok o.tempName) ∧
       getFile (extract_audio_from_video o path fs).1 o.tempName = some data ∧
       (data ≠ "" →
          getFile (extract_audio_from_video o path fs).1 o.tempName ≠
            some "") ∧
       (∀ q, q ≠ o.tempName →
          getFile (extract_audio_from_video o path fs).1 q = getFile fs q)) ∧
    (o.extract = ExtractOutcome.noAudio →
       extract_audio_from_video o path fs =
         (fs,
          [Event.status "Extracting audio from video...",
           Event.log ("Extracting audio from video: " ++ basename path)],
          Except.error
            "Failed to extract audio from video: Video file does not contain an audio track")) ∧
    (∀ m, o.extract = ExtractOutcome.demuxFail m →
       extract_audio_from_video o path fs =
         (fs,
          [Event.status "Extracting audio from video...",
           Event.log ("Extracting audio from video: " ++ basename path)],
          Except.error ("Failed to extract audio from video: " ++ m))) := by
  refine ⟨?_, ?_, ?_⟩
  · intro data hx
    have heq : extract_audio_from_video o path fs =
        (setFile fs o.tempName data,
         [Event.status "Extracting audio from video...",
          Event.log ("Extracting audio from video: " ++ basename path),
          Event.log "Audio extracted successfully"],
         Except.ok o.tempName) := by
      simp only [extract_audio_from_video, hx, setFile_setFile]
      rfl
    refine ⟨heq, ?_, ?_, ?_⟩
    · rw [heq]
      exact getFile_setFile_self fs o.tempName data
    · intro hne
      rw [heq, getFile_setFile_self fs o.tempName data]
      simp [hne]
    · intro q hq
      rw [heq]
      exact getFile_setFile_ne fs o.tempName q data hq
  · intro hx
    simp only [extract_audio_from_video, hx,
      removeFile_setFile_fresh fs o.tempName "" hfresh]
  · intro m hx
    simp only [extract_audio_from_video, hx,
      removeFile_setFile_fresh fs o.tempName "" hfresh]

/-- Witness for C6 at two concrete runs: a successful demux of
non-empty data, and a failing demux call leaving the filesystem
unchanged. -/
theorem c6_extract_audio_witness :
    getFile
      (extract_audio_from_video oracleC6ok "clip.mp4"
        [("clip.mp4", "MP4")]).1 "/tmp/tmp_c6.wav" = some "RIFFWAVE" ∧
    getFile
      (extract_audio_from_video oracleC6ok "clip.mp4"
        [("clip.mp4", "MP4")]).1 "clip.mp4" = some "MP4" ∧
    extract_audio_from_video oracleC6fail "clip.mp4" [("clip.mp4", "MP4")] =
      ([("clip.mp4", "MP4")],
       [Event.status "Extracting audio from video...",
        Event.log "Extracting audio from video: clip.mp4"],
       Except.error "Failed to extract audio from video: codec not found") := by
  have hok := (c6_extract_audio oracleC6ok "clip.mp4" [("clip.mp4", "MP4")]
    (by decide) (by decide)).1 "RIFFWAVE" (by decide)
  have hfail := (c6_extract_audio oracleC6fail "clip.mp4" [("clip.mp4", "MP4")]
    (by decide) (by decide)).2.2 "codec not found" (by decide)
  refine ⟨hok.2.1, ?_, ?_⟩
  · rw [hok.2.2.2 "clip.mp4" (by decide)]
    decide
  · rw [hfail]
    decide

/-- C7: a model identifier absent from the static table resolves by
falling back to the base identifier: the substitution is logged, no
download is triggered, and the outcome is exactly that of loading the
base artifact, so the lookup miss itself never surfaces as an error. -/
theorem c7_unknown_model_fallback (o : Oracle) (id : String)
    (h : AVAILABLE_MODELS.lookup id = none) :
    resolveModel o id =
      ⟨[Event.log ("Model \x27" ++ id ++ "\x27 not found, using \x27base\x27")],
       (match o.load1 with
        | LoadResult.ok =>
            Except.ok "./models/models--Systran--faster-whisper-base"
        | LoadResult.keyError m => Except.error m
        | LoadResult.hfError m => Except.error m
        | LoadResult.otherErr m => Except.error m),
       none⟩ := by
  have hb : AVAILABLE_MODELS.lookup "base" =
      some "./models/models--Systran--faster-whisper-base" := by decide
  cases hl : o.load1 <;> simp [resolveModel, fallback_to_base, h, hb, hl]

/-- Witness for C7: the unknown identifier turbo resolves to the base
path with the substitution logged and no error. -/
theorem c7_unknown_model_fallback_witness :
    AVAILABLE_MODELS.lookup "turbo" = none ∧
    resolveModel oracleC7 "turbo" =
      ⟨[Event.log "Model \x27turbo\x27 not found, using \x27base\x27"],
       Except.ok "./models/models--Systran--faster-whisper-base", none⟩ := by
  refine ⟨by decide, ?_⟩
  rw [c7_unknown_model_fallback oracleC7 "turbo" (by decide)]
  decide

/-- C9: the extension-based classifier accepts a path exactly when the
lowered splitext extension is one of the eight fixed video
extensions; every other input is treated as direct audio, for which
the worker records no temporary demux artifact. -/
theorem c9_is_video_iff (p : String) :
    (is_video_file p = true ↔
      (pyLower (splitext_ext p) = ".mp4" ∨ pyLower (splitext_ext p) = ".avi" ∨
       pyLower (splitext_ext p) = ".mkv" ∨ pyLower (splitext_ext p) = ".mov" ∨
       pyLower (splitext_ext p) = ".wmv" ∨ pyLower (splitext_ext p) = ".flv" ∨
       pyLower (splitext_ext p) = ".webm" ∨
       pyLower (splitext_ext p) = ".m4v")) ∧
    (is_video_file p = false → ∀ (o : Oracle) (cfg : WorkerCfg) (fs : Fs),
       cfg.audio_file = p → (workerBody o cfg fs).temp = none) := by
  constructor
  · simp [is_video_file, video_extensions, List.contains, List.elem_eq_mem]
  · intro hv o cfg fs hcfg
    simp only [workerBody, hcfg, hv, Bool.false_eq_true, if_false]
    exact bodyAfterInput_temp o cfg fs [] none 0

/-- Witness for C9: an upper-case video extension is accepted, an
audio extension is rejected and leaves no temp artifact recorded. -/
theorem c9_is_video_iff_witness :
    is_video_file "CLIP.MKV" = true ∧
    is_video_file "song.mp3" = false ∧
    (workerBody oracleC7 ⟨"song.mp3", "o.txt", "auto", "base"⟩ []).temp
      = none := by
  refine ⟨(c9_is_video_iff "CLIP.MKV").1.mpr (by decide), by decide, ?_⟩
  exact (c9_is_video_iff "song.mp3").2 (by decide) oracleC7
    ⟨"song.mp3", "o.txt", "auto", "base"⟩ [] (by decide)

/-- C10: whenever the write loop is reached, the output file is opened
in truncating mode before any in-loop stop check; with the stop flag
already set at the first in-loop check, the job leaves an existing
but empty output file (pre-existing content discarded), still emits
the user-stop log, emits no success and no error event, and ends with
finished. -/
theorem c10_truncate_before_first_check (o : Oracle) (cfg : WorkerCfg)
    (fs : Fs) (info : TransInfo) (s0 : String) (rest : List String)
    (hnv : is_video_file cfg.audio_file = false)
    (h0 : o.flag 0 = false)
    (hres : (resolveModel o cfg.model_size).result.isOk = true)
    (h1 : o.flag 1 = false)
    (htr : o.transcribe = Except.ok (info, s0 :: rest))
    (h2 : o.flag 2 = false)
    (h3 : o.flag 3 = true)
    (h4 : o.flag 4 = true) :
    getFile (transcription_worker o cfg fs).1 cfg.output_file = some "" ∧
    countLines "" = 0 ∧
    Event.log "Transcription stopped by user" ∈
      (transcription_worker o cfg fs).2 ∧
    (transcription_worker o cfg fs).2.getLast? = some Event.finished ∧
    (∀ m, Event.success m ∉ (transcription_worker o cfg fs).2) ∧
    (∀ m, Event.error m ∉ (transcription_worker o cfg fs).2) := by
  obtain ⟨pth, hpth⟩ : ∃ pth,
      (resolveModel o cfg.model_size).result = Except.ok pth := by
    rcases hr : (resolveModel o cfg.model_size).result with m | pth
    · rw [hr] at hres
      simp [Except.isOk, Except.toBool] at hres
    · exact ⟨pth, rfl⟩
  have hloop : segmentLoop o.flag 3 (s0 :: rest) =
      ⟨"", 0, [Event.log "Transcription stopped by user"], 4⟩ := by
    simp [segmentLoop, h3]
  have hstage : transcribeStage o cfg.audio_file cfg.output_file 2 fs =
      (setFile fs cfg.output_file "",
       [Event.status "Transcribing...",
        Event.log ("Starting transcription of file: " ++
          basename cfg.audio_file),
        Event.log ("Detected language: " ++ info.language ++
          " (probability: " ++ info.probStr ++ ")"),
        Event.log ("Approximate duration: " ++ info.durStr ++ " seconds"),
        Event.log "Transcription stopped by user"], none) := by
    simp only [transcribeStage, htr, h2, Bool.false_eq_true, if_false,
      show (2 : Nat) + 1 = 3 from rfl, hloop]
    simp [h4]
  have hbody : workerBody o cfg fs =
      ⟨setFile fs cfg.output_file "",
       [Event.status "Loading model...",
        Event.log ("Loading model: " ++ cfg.model_size)] ++
         (resolveModel o cfg.model_size).events ++
         [Event.status "Transcribing...",
          Event.log ("Starting transcription of file: " ++
            basename cfg.audio_file),
          Event.log ("Detected language: " ++ info.language ++
            " (probability: " ++ info.probStr ++ ")"),
          Event.log ("Approximate duration: " ++ info.durStr ++ " seconds"),
          Event.log "Transcription stopped by user"],
       none, none⟩ := by
    simp only [workerBody, hnv, Bool.false_eq_true, if_false, bodyAfterInput,
      h0, hpth, h1, show (0 : Nat) + 1 = 1 from rfl,
      show (0 : Nat) + 1 + 1 = 2 from rfl, hstage]
    simp
  have hev : (transcription_worker o cfg fs).2 =
      ([Event.status "Loading model...",
        Event.log ("Loading model: " ++ cfg.model_size)] ++
         (resolveModel o cfg.model_size).events ++
         [Event.status "Transcribing...",
          Event.log ("Starting transcription of file: " ++
            basename cfg.audio_file),
          Event.log ("Detected language: " ++ info.language ++
            " (probability: " ++ info.probStr ++ ")"),
          Event.log ("Approximate duration: " ++ info.durStr ++ " seconds"),
          Event.log "Transcription stopped by user"]) ++ [Event.finished] := by
    rw [transcription_worker_events, hbody]
    simp [cleanupStage]
  have hfs1 : (transcription_worker o cfg fs).1 = setFile fs cfg.output_file "" := by
    show (cleanupStage o (workerBody o cfg fs).fs (workerBody o cfg fs).temp).1 = _
    rw [hbody]
    rfl
  refine ⟨?_, rfl, ?_, ?_, ?_, ?_⟩
  · rw [hfs1]
    exact getFile_setFile_self fs cfg.output_file ""
  · rw [hev]
    simp
  · rw [hev]
    exact List.getLast?_concat _
  · intro m hm
    rw [hev] at hm
    rcases List.mem_append.1 hm with hm | hm
    · rcases List.mem_append.1 hm with hm | hm
      · rcases List.mem_append.1 hm with hm | hm
        · simp at hm
        · obtain ⟨t, ht⟩ := resolveModel_events_log o cfg.model_size _ hm
          exact Event.noConfusion ht
      · simp at hm
    · simp at hm
  · intro m hm
    rw [hev] at hm
    rcases List.mem_append.1 hm with hm | hm
    · rcases List.mem_append.1 hm with hm | hm
      · rcases List.mem_append.1 hm with hm | hm
        · simp at hm
        · obtain ⟨t, ht⟩ := resolveModel_events_log o cfg.model_size _ hm
          exact Event.noConfusion ht
      · simp at hm
    · simp at hm

/-- Witness for C10: an audio job whose stop flag is set when the loop
starts overwrites the old output file contents with an empty file. -/
theorem c10_truncate_before_first_check_witness :
    getFile
      (transcription_worker oracleC10 cfgC10 [("out.txt", "OLD")]).1
      "out.txt" = some "" ∧
    Event.log "Transcription stopped by user" ∈
      (transcription_worker oracleC10 cfgC10 [("out.txt", "OLD")]).2 ∧
    (transcription_worker oracleC10 cfgC10 [("out.txt", "OLD")]).2.getLast?
      = some Event.finished := by
  have h := c10_truncate_before_first_check oracleC10 cfgC10
    [("out.txt", "OLD")] ⟨"en", "0.80", "7.00"⟩ "hello" ["world"]
    (by decide) (by decide) (by decide) (by decide) (by decide) (by decide)
    (by decide) (by decide)
  exact ⟨h.1, h.2.2.1, h.2.2.2.1⟩

end TranscriptionGUI
